import Mathlib

/-!
Verification development for the ProxyCall repository.

The Python source is shallowly embedded as executable Lean definitions:
spreadsheet tables become lists of row structures, row indices are list
indices (spreadsheet row r corresponds to list index r - 2, the sheet's
first data row), cell updates become functional updates, and Python
exceptions become `Except` values.  Timestamps are modelled through the
three cases the code can observe after `datetime.fromisoformat`:
empty cell, unparseable text, or a parsed instant (an integer number of
minutes, matching the `timedelta(minutes=...)` granularity used by the
staleness check).
-/

namespace ProxyCall

/-! ## Python string primitives

Embeddings of the `str` operations the routed code uses
(`strip`, `lower`, `upper`, `replace(" ", "")`, `startswith`, slicing,
`int(...)`).  They are written over `List Char` so that concrete
evaluation reduces well. -/

/-- Characters removed by Python `str.strip()` (ASCII whitespace). -/
def isPySpace (c : Char) : Bool :=
  c = ' ' || c = '\t' || c = '\n' || c = '\r' || c = '\x0b' || c = '\x0c'

/-- Embedding of Python `str.strip()`. -/
def pyStrip (s : String) : String :=
  ⟨((s.data.dropWhile isPySpace).reverse.dropWhile isPySpace).reverse⟩

/-- ASCII lower-casing of one character, as Python `str.lower()` does on the
identifiers and status words used by this code base. -/
def charLower (c : Char) : Char :=
  if 'A' ≤ c && c ≤ 'Z' then Char.ofNat (c.toNat + 32) else c

/-- ASCII upper-casing of one character. -/
def charUpper (c : Char) : Char :=
  if 'a' ≤ c && c ≤ 'z' then Char.ofNat (c.toNat - 32) else c

/-- Embedding of Python `str.lower()`. -/
def pyLower (s : String) : String := ⟨s.data.map charLower⟩

/-- Embedding of Python `str.upper()`. -/
def pyUpper (s : String) : String := ⟨s.data.map charUpper⟩

/-- Embedding of Python `str.replace(" ", "")`. -/
def dropSpaces (s : String) : String := ⟨s.data.filter (fun c => c ≠ ' ')⟩

/-- Embedding of Python `str.replace("+", "")`. -/
def dropPlus (s : String) : String := ⟨s.data.filter (fun c => c ≠ '+')⟩

/-- Boolean prefix test on character lists (first argument is the pattern). -/
def listPrefixEq : List Char → List Char → Bool
  | [], _ => true
  | _ :: _, [] => false
  | a :: as, b :: bs => a = b && listPrefixEq as bs

/-- Embedding of Python `s.startswith(p)`. -/
def strStarts (s p : String) : Bool := listPrefixEq p.data s.data

/-- Prepend a `+` when the string does not already start with one
(the `if s.startswith("+") else "+" + s` idiom). -/
def ensurePlus (s : String) : String :=
  if strStarts s "+" then s else ⟨'+' :: s.data⟩

/-- Embedding of Python slicing `s[:n]`. -/
def strTake (s : String) (n : Nat) : String := ⟨s.data.take n⟩

/-- Numeric value of a decimal digit list (most significant first). -/
def digitsVal : List Char → Nat → Nat
  | [], acc => acc
  | c :: cs, acc => digitsVal cs (acc * 10 + (c.toNat - 48))

/-- Parse a non-empty all-digit character list. -/
def parseNatDigits (cs : List Char) : Option Nat :=
  if cs ≠ [] && cs.all Char.isDigit then some (digitsVal cs 0) else none

/-- Embedding of Python `int(s)` on the forms this code stores (an optional
sign followed by decimal digits, surrounding whitespace ignored);
`none` models the `ValueError` branch. -/
def pyToInt (s : String) : Option Int :=
  match (pyStrip s).data with
  | '-' :: rest => (parseNatDigits rest).map (fun n => -(n : Int))
  | '+' :: rest => (parseNatDigits rest).map (fun n => (n : Int))
  | cs => (parseNatDigits cs).map (fun n => (n : Int))

/-! ## Generic list helpers -/

/-- Apply `f` to the element at position `i`, leaving the list unchanged when
`i` is out of range (an out-of-range spreadsheet write touches no stored row). -/
def setAt {α : Type} : List α → Nat → (α → α) → List α
  | [], _, _ => []
  | a :: as, 0, f => f a :: as
  | a :: as, n + 1, f => a :: setAt as n f

/-- First element satisfying `p`, together with its position — the
`for idx, rec in enumerate(records)` / first-match-wins scan pattern. -/
def findWithIdx {α : Type} (p : α → Bool) : List α → Option (Nat × α)
  | [] => none
  | a :: as =>
    if p a then some (0, a)
    else (findWithIdx p as).map (fun x => (x.1 + 1, x.2))

/-! ## Pool data model (repositories/pools_repository.py)

The TwilioPools sheet columns are
A country_iso, B phone_number, C status, D friendly_name, E date_achat,
F date_attribution, G attribution_to_client_name, H number_type,
I reserved_token, J reserved_at, K reserved_by_client_id.
A sheet is a list of data rows; sheet row r is list index r - 2. -/

/-- What `datetime.fromisoformat` can observe in the `reserved_at` cell:
an empty cell, text it cannot parse, or a parsed instant
(`iso t` stands for a timestamp string parsing to minute `t`). -/
inductive TimeStr : Type
  | empty : TimeStr
  | invalid : TimeStr
  | iso : Int → TimeStr
deriving Repr, DecidableEq

/-- One row of the TwilioPools sheet. -/
structure PoolRow where
  country_iso : String
  phone_number : String
  status : String
  friendly_name : String
  date_achat : String
  date_attribution : String
  attribution_to_client_name : String
  number_type : String
  reserved_token : String
  reserved_at : TimeStr
  reserved_by_client_id : String
deriving Repr, DecidableEq

/-- Embedding of the nested helper `_is_stale_reserved` of
`reserve_first_available` (pools_repository.py:248-258): a row counts as a
stale reservation when its status is `reserved` and its `reserved_at` is
empty, unparseable, or strictly older than `now - stale_after_minutes`. -/
def is_stale_reserved (now staleAfterMinutes : Int) (status : String)
    (reservedAt : TimeStr) : Bool :=
  if pyLower (pyStrip status) ≠ "reserved" then false
  else
    match reservedAt with
    | .empty => true
    | .invalid => true
    | .iso t => decide (t < now - staleAfterMinutes)

/-- Normalisation of the requested country (`(country_iso or "").strip().upper()`). -/
def normCountry (c : String) : String := pyUpper (pyStrip c)

/-- Normalisation of the requested number type
(`(number_type or "mobile").strip().lower()`, then `national -> local`). -/
def normRequestedType (t : String) : String :=
  let base := if t = "" then "mobile" else t
  let r := pyLower (pyStrip base)
  if r = "national" then "local" else r

/-- The scan filter of `reserve_first_available` (pools_repository.py:279-291):
country and number type must match, and the row must be `available` or a
stale `reserved` row. -/
def rowIsCandidate (now stale : Int) (country requested : String)
    (r : PoolRow) : Bool :=
  pyUpper (pyStrip r.country_iso) = country &&
  pyLower (pyStrip r.number_type) = requested &&
  (pyLower (pyStrip r.status) = "available" ||
    is_stale_reserved now stale (pyLower (pyStrip r.status)) r.reserved_at)

/-- First candidate row of a snapshot, with its list index
(scan order = storage row order, first match wins). -/
def findCandidate (now stale : Int) (country requested : String)
    (rows : List PoolRow) : Option (Nat × PoolRow) :=
  findWithIdx (rowIsCandidate now stale country requested) rows

/-- One multi-cell update issued against the TwilioPools sheet.  The
constructors record which cells one `sheet.update(...)` call touches. -/
inductive PoolWrite : Type
  | setStatus : Nat → String → PoolWrite
  | setAttrib : Nat → String → String → PoolWrite
  | setTrace : Nat → String → TimeStr → String → PoolWrite
  | setAttribName : Nat → String → PoolWrite
deriving Repr, DecidableEq

/-- Does this update write the status column C? -/
def PoolWrite.isStatusWrite : PoolWrite → Bool
  | .setStatus _ _ => true
  | _ => false

/-- Apply one update to the sheet state. -/
def applyWrite (s : List PoolRow) (w : PoolWrite) : List PoolRow :=
  match w with
  | .setStatus i v => setAt s i (fun r => { r with status := v })
  | .setAttrib i d a =>
    setAt s i (fun r => { r with date_attribution := d, attribution_to_client_name := a })
  | .setTrace i tok ra cid =>
    setAt s i (fun r => { r with reserved_token := tok, reserved_at := ra, reserved_by_client_id := cid })
  | .setAttribName i v =>
    setAt s i (fun r => { r with attribution_to_client_name := v })

/-- Apply a sequence of updates in order. -/
def applyWrites (s : List PoolRow) (ws : List PoolWrite) : List PoolRow :=
  ws.foldl applyWrite s

/-- The value `sheet.get(I(row))` yields: the reservation-token cell of the
row, or the empty string when the row does not exist. -/
def tokenCellAt (s : List PoolRow) (i : Nat) : String :=
  match s.get? i with
  | some r => r.reserved_token
  | none => ""

/-- Embedding of `PoolsRepository.finalize_assignment_keep_friendly`
(pools_repository.py:379-428) as the pair (result, updates issued):
re-read the token cell; on a (stripped) mismatch return `false` with no
writes; on a match write C=assigned, then F/G, then I/J/K.
`nowStr` stands for `datetime.utcnow().isoformat()`, used when
`date_attribution` is falsy. -/
def finalize_assignment_keep_friendly (s : List PoolRow) (rowIndex : Nat)
    (reservedToken : String) (reservedAt : TimeStr) (reservedByClientId : String)
    (dateAttribution : String) (attributionName : String) (nowStr : String) :
    Bool × List PoolWrite :=
  let currentToken := tokenCellAt s rowIndex
  if pyStrip currentToken ≠ pyStrip reservedToken then (false, [])
  else
    let dateAttr := if dateAttribution = "" then nowStr else dateAttribution
    (true,
      [.setStatus rowIndex "assigned",
       .setAttrib rowIndex dateAttr attributionName,
       .setTrace rowIndex reservedToken reservedAt reservedByClientId])

/-- `finalize_assignment_keep_friendly` together with the sheet state it
leaves behind. -/
def finalizeRun (s : List PoolRow) (rowIndex : Nat) (reservedToken : String)
    (reservedAt : TimeStr) (reservedByClientId : String)
    (dateAttribution : String) (attributionName : String) (nowStr : String) :
    Bool × List PoolRow :=
  let r := finalize_assignment_keep_friendly s rowIndex reservedToken reservedAt
    reservedByClientId dateAttribution attributionName nowStr
  (r.1, applyWrites s r.2)

/-- The per-row match test of `release_reservation_by_token`
(pools_repository.py:359-362): status `reserved` and the stripped token
cell equal to the (already stripped) requested token. -/
def releaseMatches (token : String) (r : PoolRow) : Bool :=
  pyLower (pyStrip r.status) = "reserved" && pyStrip r.reserved_token = token

/-- The writes `release_reservation_by_token` performs on a matched row:
C=available, I/J/K cleared, G cleared. -/
def releaseRow (token : String) (r : PoolRow) : PoolRow :=
  if releaseMatches token r then
    { r with
      status := "available",
      reserved_token := "",
      reserved_at := TimeStr.empty,
      reserved_by_client_id := "",
      attribution_to_client_name := "" }
  else r

/-- Embedding of `PoolsRepository.release_reservation_by_token`
(pools_repository.py:336-376): empty token releases nothing; otherwise every
row whose status is `reserved` and whose token matches is returned to
`available` with its reservation trace and attribution cleared.  The scan
decisions all read the initial snapshot, so the result is a single map. -/
def release_reservation_by_token (reservedToken : String) (s : List PoolRow) :
    Nat × List PoolRow :=
  let token := pyStrip reservedToken
  if token = "" then (0, s)
  else (s.countP (fun r => releaseMatches token r), s.map (releaseRow token))

/-! ## Reserve (pools_repository.py:218-334)

`reserve_first_available` runs against a store with no locks, so each
attempt re-reads the whole sheet and the re-read of the token cell may see
another writer's value.  The environment below supplies what the store
returns at each attempt: `snapshot k` is the list of data rows
`get_all_values` yields on attempt `k` (arbitrary, to account for
concurrent writers), `token k` is the fresh `str(uuid.uuid4())` generated
on attempt `k`, and `readback k` is the value the verification re-read of
cell I sees on attempt `k`. -/

/-- The dictionary `reserve_first_available` returns on success. -/
structure ReservedEntry where
  row_index : Nat
  phone_number : String
  reserved_token : String
  reserved_at : Int
deriving Repr, DecidableEq

/-- Store behaviour visible to one `reserve_first_available` call. -/
structure ReserveEnv where
  snapshot : Nat → List PoolRow
  readback : Nat → String
  token : Nat → String
  now : Int

/-- The success payload built at pools_repository.py:319-324. -/
def mkReservedEntry (idx : Nat) (row : PoolRow) (token : String) (now : Int) :
    ReservedEntry :=
  ⟨idx, pyStrip row.phone_number, token, now⟩

/-- The cell updates one successful scan hit performs before the
verification re-read (pools_repository.py:297-301): C=reserved first,
then I/J/K = token, now, client id. -/
def reserveAttemptWrites (idx : Nat) (token : String) (now : Int)
    (clientId : String) : List PoolWrite :=
  [.setStatus idx "reserved", .setTrace idx token (.iso now) clientId]

/-- The `for attempt in range(max_tries)` loop of `reserve_first_available`
(pools_repository.py:267-331).  `k` is the current attempt number and the
second component counts the attempts consumed.  An empty snapshot aborts
(the `len(values) < 2` guard); a candidate whose verification re-read
returns the token just written succeeds; a clobbered write or a scan with
no candidate moves on to the next attempt, restarting the scan from the
top of a fresh snapshot. -/
def reserveLoop (env : ReserveEnv) (stale : Int) (country requested : String) :
    Nat → Nat → Option ReservedEntry × Nat
  | _, 0 => (none, 0)
  | k, rem + 1 =>
    let rows := env.snapshot k
    if rows = [] then (none, 1)
    else
      match findCandidate env.now stale country requested rows with
      | some (idx, row) =>
        if pyStrip (env.readback k) = env.token k then
          (some (mkReservedEntry idx row (env.token k) env.now), 1)
        else
          let r := reserveLoop env stale country requested (k + 1) rem
          (r.1, r.2 + 1)
      | none =>
        let r := reserveLoop env stale country requested (k + 1) rem
        (r.1, r.2 + 1)

/-- Embedding of `PoolsRepository.reserve_first_available`
(pools_repository.py:218-334); the `max_tries` default is 10. -/
def reserve_first_available (env : ReserveEnv) (countryIso numberType : String)
    (maxTries : Nat) (staleAfterMinutes : Int) : Option ReservedEntry × Nat :=
  reserveLoop env staleAfterMinutes (normCountry countryIso)
    (normRequestedType numberType) 0 maxTries

/-! ## Clients data model (repositories/clients_repository.py, models/client.py)

The Clients sheet columns are
A client_id, B client_name, C client_mail, D client_real_phone,
E client_proxy_number, F client_iso_residency, G client_country_code,
H client_last_caller.  Records are the rows from sheet row 2 on (list
index 0 is sheet row 2, which the sheet reserves for array formulas:
writes skip it via `DATA_START_ROW = 3` / `row_idx < 3`). -/

/-- One record of the Clients sheet. -/
structure ClientRow where
  client_id : String
  client_name : String
  client_mail : String
  client_real_phone : String
  client_proxy_number : String
  client_iso_residency : String
  client_country_code : String
  client_last_caller : String
deriving Repr, DecidableEq

/-- The proxy-number normalisation used by the Clients repository:
`str(x).strip().replace(" ", "").replace("+", "")`. -/
def normProxyCmp (s : String) : String := dropPlus (dropSpaces (pyStrip s))

/-- The record filter of `ClientsRepository.get_by_proxy_number`
(clients_repository.py:68-72): non-empty normalised proxy equal to the
normalised target. -/
def proxyRecMatches (targetNorm : String) (r : ClientRow) : Bool :=
  normProxyCmp r.client_proxy_number ≠ "" &&
    normProxyCmp r.client_proxy_number = targetNorm

/-- Embedding of `ClientsRepository.get_by_proxy_number`
(clients_repository.py:55-86): first record whose normalised proxy number
equals the normalised argument. -/
def get_by_proxy_number (proxyNumber : String) (clients : List ClientRow) :
    Option ClientRow :=
  clients.find? (proxyRecMatches (normProxyCmp proxyNumber))

/-- Embedding of `ClientsRepository.get_by_id`
(clients_repository.py:30-53): first record with the exact
(string-compared) client id. -/
def get_by_id (clientId : String) (clients : List ClientRow) :
    Option ClientRow :=
  clients.find? (fun r => r.client_id = clientId)

/-- Embedding of `ClientsRepository.get_max_client_id`
(clients_repository.py:342-360): the largest parseable integer id, rows
with a non-numeric id skipped, starting from 0. -/
def get_max_client_id (clients : List ClientRow) : Int :=
  clients.foldl
    (fun m r =>
      match pyToInt r.client_id with
      | some n => max m n
      | none => m)
    0

/-- Embedding of `ClientsRepository.save` (clients_repository.py:144-201):
appends a row carrying only columns A..E; F/G are cleared after the append
and H is untouched, so the appended record has empty iso residency,
country code and last caller. -/
def clientsSave (c : ClientRow) (clients : List ClientRow) : List ClientRow :=
  clients ++
    [{ c with
       client_iso_residency := "",
       client_country_code := "",
       client_last_caller := "" }]

/-- The row rewrite of `ClientsRepository.update`
(clients_repository.py:269-340): columns A..E are written from the client,
`client_last_caller` is preserved, the protected columns F/G are never
written and are cleared by the trailing `batch_clear` (the sheet's array
formulas, out of scope here, repopulate them). -/
def clientsUpdateRow (c : ClientRow) (r : ClientRow) : ClientRow :=
  { r with
    client_id := c.client_id,
    client_name := c.client_name,
    client_mail := c.client_mail,
    client_real_phone := c.client_real_phone,
    client_proxy_number := c.client_proxy_number,
    client_iso_residency := "",
    client_country_code := "" }

/-- The target-row scan of `ClientsRepository.update`
(clients_repository.py:246-252): first row at sheet row ≥ 3 (list index
≥ 1) whose stripped id column equals the client's id. -/
def clientsUpdateFindIdx (clientId : String) (clients : List ClientRow) :
    Option Nat :=
  (findWithIdx (fun r => pyStrip r.client_id = clientId) clients.tail).map
    (fun x => x.1 + 1)

/-- Embedding of `ClientsRepository.update` (clients_repository.py:203-340):
rewrite the matched row in place, or append via `save` when no row at sheet
row ≥ 3 carries the id. -/
def clientsUpdate (c : ClientRow) (clients : List ClientRow) : List ClientRow :=
  match clientsUpdateFindIdx c.client_id clients with
  | some i => setAt clients i (clientsUpdateRow c)
  | none => clientsSave c clients

/-- Embedding of `ClientsRepository.update_last_caller_by_proxy`
(clients_repository.py:362-386): writes the caller number into column H of
the first record matching the proxy, skipping sheet row 2 (list index 0),
and stops after the first hit. -/
def updateLastCallerAux (targetNorm caller : String) :
    Nat → List ClientRow → List ClientRow
  | _, [] => []
  | i, r :: rs =>
    if i = 0 then r :: updateLastCallerAux targetNorm caller (i + 1) rs
    else if proxyRecMatches targetNorm r then
      { r with client_last_caller := caller } :: rs
    else r :: updateLastCallerAux targetNorm caller (i + 1) rs

/-- See `updateLastCallerAux`. -/
def update_last_caller_by_proxy (proxyNumber callerNumber : String)
    (clients : List ClientRow) : List ClientRow :=
  updateLastCallerAux (normProxyCmp proxyNumber) callerNumber 0 clients

/-! ## Routing helpers (services/clients_service.py, EU allow-list) -/

/-- Embedding of `clients_service.extract_country_code`
(clients_service.py:17-27): strip, drop spaces, ensure a leading `+`, then
take the first three characters. -/
def extract_country_code (phone : String) : String :=
  if phone = "" then ""
  else strTake (ensurePlus (dropSpaces (pyStrip phone))) 3

/-- The EU/EEA/Switzerland dialing-code allow-list duplicated at
call_routing_service.py:12-43 and message_routing_service.py:17-48. -/
def EU_COUNTRY_CODES : List String :=
  ["+30", "+31", "+32", "+33", "+34", "+351", "+352", "+353", "+354",
   "+356", "+357", "+358", "+359", "+36", "+370", "+371", "+372", "+385",
   "+386", "+39", "+40", "+41", "+420", "+421", "+43", "+45", "+46",
   "+47", "+48", "+49"]

/-- The country gate both routing services apply
(call_routing_service.py:83, message_routing_service.py:194): the origin's
extracted dialing code must start with some member of the allow-list; an
empty code fails.  The client's stored `client_country_code` is only
logged, never compared. -/
def originInEu (originCc : String) : Bool :=
  if originCc = "" then false
  else EU_COUNTRY_CODES.any (fun code => strStarts originCc code)

/-! ## Pending confirmations
(repositories/confirmation_pending_repository.py) -/

/-- One row of the CONFIRMATION_PENDING sheet. -/
structure PendingRow where
  pending_id : String
  client_name : String
  client_mail : String
  client_real_phone : String
  proxy_number : String
  otp : String
  status : String
  created_at : String
  verified_at : String
deriving Repr, DecidableEq

/-- Embedding of `_norm_cmp` (confirmation_pending_repository.py:15-19):
strip, drop spaces, drop one leading `+`. -/
def norm_cmp (num : String) : String :=
  let s := dropSpaces (pyStrip num)
  if strStarts s "+" then ⟨s.data.drop 1⟩ else s

/-- The row filter of `find_pending_by_proxy_and_phone`
(confirmation_pending_repository.py:160-169): status `PENDING` (upper-cased
comparison) and both numbers equal under `_norm_cmp`. -/
def pendingMatches (proxyCmp phoneCmp : String) (r : PendingRow) : Bool :=
  pyUpper (pyStrip r.status) = "PENDING" &&
  norm_cmp r.proxy_number = proxyCmp &&
  norm_cmp r.client_real_phone = phoneCmp

/-- Embedding of
`ConfirmationPendingRepository.find_pending_by_proxy_and_phone`
(confirmation_pending_repository.py:146-171), returning the list index and
the record of the first matching `PENDING` row. -/
def find_pending_by_proxy_and_phone (proxyNumber clientPhone : String)
    (pending : List PendingRow) : Option (Nat × PendingRow) :=
  findWithIdx (pendingMatches (norm_cmp proxyNumber) (norm_cmp clientPhone))
    pending

/-- Embedding of `mark_verified`
(confirmation_pending_repository.py:173-183). -/
def mark_verified (row : Nat) (now : String) (pending : List PendingRow) :
    List PendingRow :=
  setAt pending row (fun r => { r with status := "VERIFIED", verified_at := now })

/-- Embedding of `mark_promoted`
(confirmation_pending_repository.py:185-191). -/
def mark_promoted (row : Nat) (pending : List PendingRow) : List PendingRow :=
  setAt pending row (fun r => { r with status := "PROMOTED" })

/-- Embedding of `mark_updated`
(confirmation_pending_repository.py:193-207). -/
def mark_updated (row : Nat) (details : String) (pending : List PendingRow) :
    List PendingRow :=
  setAt pending row (fun r =>
    { r with
      status := if details = "" then "UPDATED"
        else "UPDATED (" ++ details ++ ")" })

/-! ## OTP extraction (message_routing_service.py:50, 77-83)

`_extract_otp` searches the stripped body for the regex
`\b(\d{4,8})\b` and falls back to stripping every non-digit.  A regex
match is a maximal digit run of length 4 to 8 whose neighbours (when
present) are not word characters. -/

/-- Python `\w`: letters, digits, underscore. -/
def isWordChar (c : Char) : Bool := c.isAlphanum || c = '_'

/-- Split off the leading digit run. -/
def takeDigits : List Char → List Char × List Char
  | [] => ([], [])
  | c :: cs =>
    if c.isDigit then
      let r := takeDigits cs
      (c :: r.1, r.2)
    else ([], c :: cs)

/-- Search for the first digit run matching `\b(\d{4,8})\b`.  `prev` is the
character preceding the current position (`none` at the start of the
text).  A rejected run is skipped whole: positions inside it are preceded
by a digit, so no word boundary can occur there.  The recursion is driven
by a fuel argument so that it is structural; every step consumes at least
one character, so fuel equal to the text length (see `findOtpRun`) never
runs out. -/
def findOtpRunFuel : Nat → Option Char → List Char → Option (List Char)
  | 0, _, _ => none
  | _, _, [] => none
  | fuel + 1, prev, c :: cs =>
    if c.isDigit && (match prev with
        | none => true
        | some p => !isWordChar p) then
      let run := c :: (takeDigits cs).1
      let rest := (takeDigits cs).2
      if 4 ≤ run.length && run.length ≤ 8 &&
          (match rest with
            | [] => true
            | d :: _ => !isWordChar d) then
        some run
      else
        findOtpRunFuel fuel (some c) rest
    else
      findOtpRunFuel fuel (some c) cs

/-- See `findOtpRunFuel`. -/
def findOtpRun (prev : Option Char) (l : List Char) : Option (List Char) :=
  findOtpRunFuel l.length prev l

/-- Embedding of `MessageRoutingService._extract_otp`
(message_routing_service.py:77-83). -/
def extract_otp (body : String) : String :=
  let bc := pyStrip body
  match findOtpRun none bc.data with
  | some run => ⟨run⟩
  | none => ⟨bc.data.filter Char.isDigit⟩

/-! ## Voice routing (services/call_routing_service.py) -/

/-- The TwiML responses `handle_incoming_call` can produce: a spoken
rejection, or a `Dial` with a caller id and a target number. -/
inductive VoiceDecision : Type
  | say : String → VoiceDecision
  | dial : String → String → VoiceDecision
deriving Repr, DecidableEq

/-- Embedding of `CallRoutingService.handle_incoming_call`
(call_routing_service.py:46-135): resolve the owning client, apply the
EU-membership country gate, then either reflect a self-callback to the
last caller or connect the caller to the client's real number (persisting
the caller as the new last caller first).  Returns the Clients sheet it
leaves behind together with the decision. -/
def handle_incoming_call (proxyNumber callerNumber : String)
    (clients : List ClientRow) : List ClientRow × VoiceDecision :=
  match get_by_proxy_number proxyNumber clients with
  | none => (clients, .say "Ce numéro n'est pas reconnu.")
  | some client =>
    let callerCc := extract_country_code callerNumber
    if !originInEu callerCc then
      (clients, .say "Ce numéro n'est pas accessible depuis votre pays.")
    else
      let proxyE164 := ensurePlus proxyNumber
      let realE164 := ensurePlus client.client_real_phone
      if callerNumber = realE164 then
        let last := dropSpaces (pyStrip client.client_last_caller)
        if last = "" then (clients, .say "Aucun appelant récent.")
        else (clients, .dial proxyE164 (ensurePlus last))
      else
        (update_last_caller_by_proxy proxyE164 callerNumber clients,
          .dial proxyE164 realE164)

/-! ## Confirmation service (services/confirmation_service.py) -/

/-- Embedding of `_e164` (confirmation_service.py:21-25): strip, drop
spaces, ensure a leading `+`. -/
def e164 (num : String) : String := ensurePlus (dropSpaces (pyStrip num))

/-- Python exceptions the embedded services can raise. -/
inductive PyErr : Type
  | attributeError : PyErr
  | runtimeError : String → PyErr
deriving Repr, DecidableEq

/-- Whether `find_row_by_phone_number` is an attribute of the
`PoolsRepository` class.  The `def` at pools_repository.py:619-640 sits
inside the body of `mark_assigned` (one indentation level deeper than the
class-level methods), so the name is a local of `mark_assigned` and is
never bound on the class: the attribute lookup
`PoolsRepository.find_row_by_phone_number` raises `AttributeError`. -/
def poolsRepoHasFindRowByPhone : Bool := false

/-- The body written at pools_repository.py:620-640 (what the nested
function would compute were it reachable): the first pool row whose phone
number, space-stripped and `+`-prefixed, equals the likewise-normalised
argument. -/
def find_row_by_phone_number_body (phoneNumber : String)
    (pools : List PoolRow) : Option (Nat × PoolRow) :=
  let target := ensurePlus (dropSpaces (pyStrip phoneNumber))
  findWithIdx
    (fun r =>
      let recPhone := dropSpaces (pyStrip r.phone_number)
      let recPhone2 :=
        if recPhone ≠ "" && !(strStarts recPhone "+") then ⟨'+' :: recPhone.data⟩
        else recPhone
      recPhone2 = target)
    pools

/-- Result of `upsert_client_and_attach_proxy`
(confirmation_service.py:13-18); `updated_fields ⊆ {mail, telephone}` is
carried as two flags. -/
structure UpsertResult where
  client : ClientRow
  created : Bool
  updatedMail : Bool
  updatedTel : Bool
  matchReason : String
deriving Repr, DecidableEq

/-- Email test of the upsert scan (confirmation_service.py:86, 90):
non-empty lower-cased stored mail equal to the lower-cased request mail. -/
def upsertEmailHit (emailCmp : String) (r : ClientRow) : Bool :=
  let recEmail := pyLower (pyStrip r.client_mail)
  recEmail ≠ "" && recEmail = emailCmp

/-- Phone test of the upsert scan (confirmation_service.py:87-88, 93):
stored phone, space-stripped, `+` dropped when it leads, compared to the
request phone normalised the same way. -/
def upsertPhoneHit (phoneCmp : String) (r : ClientRow) : Bool :=
  let recPhone := dropSpaces (pyStrip r.client_real_phone)
  let recPhoneCmp := if strStarts recPhone "+" then dropPlus recPhone else recPhone
  recPhoneCmp ≠ "" && recPhoneCmp = phoneCmp

/-- The record loop of `upsert_client_and_attach_proxy`
(confirmation_service.py:85-98): per record the email test runs before the
phone test, and the first record that passes either wins (`break`). -/
def upsertFindMatch (emailCmp phoneCmp : String) :
    List ClientRow → Option (String × String)
  | [] => none
  | r :: rs =>
    if upsertEmailHit emailCmp r then some (r.client_id, "email_match")
    else if upsertPhoneHit phoneCmp r then some (r.client_id, "phone_match")
    else upsertFindMatch emailCmp phoneCmp rs

/-- Step 0 of the upsert (confirmation_service.py:55-83): identify the
client through the pool row already assigned for the same pending id.  The
`PoolsRepository.find_row_by_phone_number` lookup raises `AttributeError`,
which the surrounding `try/except` swallows (`pool_hit = None`), so with
the attribute missing this step never finds anything. -/
def upsertPoolMatch (pendingId proxyE164 : String) (pools : List PoolRow) :
    Option (String × String) :=
  if poolsRepoHasFindRowByPhone then
    match find_row_by_phone_number_body proxyE164 pools with
    | some hit =>
      let rec0 := hit.2
      let recReservedId := pyStrip rec0.reserved_by_client_id
      let recToken := pyStrip rec0.reserved_token
      let recStatus := pyLower (pyStrip rec0.status)
      if recStatus = "assigned" && recReservedId ≠ "" && pendingId ≠ "" &&
          recToken = pendingId then
        some (recReservedId, "pool_reserved_match")
      else none
    | none => none
  else none

/-- Embedding of `ConfirmationService.upsert_client_and_attach_proxy`
(confirmation_service.py:29-170).  Returns the Clients sheet it leaves
behind and the upsert result. -/
def upsert_client_and_attach_proxy
    (clientName clientMail clientRealPhone proxyNumber pendingId : String)
    (pools : List PoolRow) (clients : List ClientRow) :
    List ClientRow × UpsertResult :=
  let emailCmp := pyLower (pyStrip clientMail)
  let phoneCmp := dropPlus (e164 clientRealPhone)
  let proxyE164 := e164 proxyNumber
  let found :=
    match upsertPoolMatch pendingId proxyE164 pools with
    | some hit => some hit
    | none => upsertFindMatch emailCmp phoneCmp clients
  match found with
  | some fid =>
    let client :=
      match get_by_id fid.1 clients with
      | some rec => rec
      | none =>
        { client_id := fid.1,
          client_name := clientName,
          client_mail := emailCmp,
          client_real_phone := e164 clientRealPhone,
          client_proxy_number := "",
          client_iso_residency := "",
          client_country_code := "",
          client_last_caller := "" }
    let normExistingMail := pyLower (pyStrip client.client_mail)
    let normExistingPhone := dropPlus (e164 client.client_real_phone)
    let uMail := emailCmp ≠ "" && emailCmp ≠ normExistingMail
    let uTel := phoneCmp ≠ "" && phoneCmp ≠ normExistingPhone
    let client2 :=
      { client with
        client_name := if clientName = "" then client.client_name else clientName,
        client_mail := emailCmp,
        client_real_phone := e164 clientRealPhone,
        client_proxy_number := proxyE164 }
    (clientsUpdate client2 clients,
      ⟨client2, false, uMail, uTel, fid.2⟩)
  | none =>
    let newId := get_max_client_id clients + 1
    let client : ClientRow :=
      { client_id := toString newId,
        client_name := clientName,
        client_mail := emailCmp,
        client_real_phone := e164 clientRealPhone,
        client_proxy_number := proxyE164,
        client_iso_residency := "",
        client_country_code := "",
        client_last_caller := "" }
    (clientsSave client clients, ⟨client, true, true, true, "creation"⟩)

/-- Embedding of `ConfirmationService.finalize_pool_assignment`
(confirmation_service.py:172-250).  Its first storage access is the
attribute lookup `PoolsRepository.find_row_by_phone_number` at line 184,
outside any `try`: with the attribute missing the call raises
`AttributeError` before reading or writing any pool row.  The remainder of
the body (the branch under `poolsRepoHasFindRowByPhone`) is embedded for
completeness but is unreachable.  `nowStr`/`nowT` stand for
`datetime.now(timezone.utc)` as a cell string and as a model instant. -/
def finalize_pool_assignment
    (proxyNumber pendingId clientId attributionName nowStr : String)
    (nowT : Int) (pools : List PoolRow) : Except PyErr (List PoolRow) :=
  if poolsRepoHasFindRowByPhone then
    let proxyE164 := e164 proxyNumber
    match find_row_by_phone_number_body proxyE164 pools with
    | none => .error (.runtimeError "TwilioPools: proxy introuvable")
    | some hit =>
      let rowIndex := hit.1
      let rec0 := hit.2
      let recStatus := pyLower (pyStrip rec0.status)
      let recReservedClient := pyStrip rec0.reserved_by_client_id
      let reservedToken := pyStrip rec0.reserved_token
      if reservedToken ≠ "" && reservedToken ≠ pendingId &&
          !(recStatus = "assigned" && recReservedClient = clientId) then
        .error (.runtimeError "TwilioPools: reserved_token mismatch")
      else
        let reservedToken2 := if reservedToken = "" then pendingId else reservedToken
        let reservedAt :=
          match rec0.reserved_at with
          | .empty => TimeStr.iso nowT
          | x => x
        if recStatus = "assigned" then
          if recReservedClient = clientId then .ok pools
          else .error (.runtimeError "proxy déjà assigné à un autre client")
        else
          .ok (finalizeRun pools rowIndex reservedToken2 reservedAt clientId
            nowStr attributionName nowStr).2
  else .error .attributeError

/-! ## Message routing (services/message_routing_service.py) -/

/-- System state seen by the SMS handler: the three sheets plus the
outbound messages handed to the carrier (from, to, body). -/
structure SmsState where
  pending : List PendingRow
  clients : List ClientRow
  pools : List PoolRow
  sent : List (String × String × String)
deriving Repr, DecidableEq

/-- The TwiML reply `_build_response` produces: a `<Message>` text or the
empty response. -/
inductive SmsResponse : Type
  | message : String → SmsResponse
  | empty : SmsResponse
deriving Repr, DecidableEq

/-- The post-verification notification text (message_routing_service.py:164). -/
def confirmationSmsBody : String :=
  "Confirmation OK. Merci ! Enregistre ce numéro pour tes prochaines livraison !"

/-- Embedding of `MessageRoutingService._route_sms`
(message_routing_service.py:86-240).  Sheet writes performed before an
exception persist, so the function returns the state it leaves behind
together with either a response or the exception that escaped.
`now`/`nowT` model the wall clock as a cell string and a model instant. -/
def route_sms (proxyNumber senderNumber body now : String) (nowT : Int)
    (s : SmsState) : SmsState × Except PyErr SmsResponse :=
  let proxyE164 := ensurePlus proxyNumber
  let senderE164 := ensurePlus senderNumber
  match find_pending_by_proxy_and_phone proxyE164 senderE164 s.pending with
  | some hit =>
    let row := hit.1
    let rec0 := hit.2
    let expected := pyStrip rec0.otp
    let provided := extract_otp body
    if expected = "" then
      (s, .ok (.message "Erreur: code introuvable. Contactez le support."))
    else if provided ≠ expected then
      (s, .ok (.message "Code invalide. Réessayez."))
    else
      let s1 := { s with pending := mark_verified row now s.pending }
      let up := upsert_client_and_attach_proxy (pyStrip rec0.client_name)
        (pyStrip rec0.client_mail) (pyStrip rec0.client_real_phone)
        (pyStrip rec0.proxy_number) (pyStrip rec0.pending_id)
        s1.pools s1.clients
      let s2 := { s1 with clients := up.1 }
      let ur := up.2
      match finalize_pool_assignment (pyStrip rec0.proxy_number)
          (pyStrip rec0.pending_id) ur.client.client_id
          (pyStrip rec0.client_name) now nowT s2.pools with
      | .error e => (s2, .error e)
      | .ok pools3 =>
        let s3 := { s2 with pools := pools3 }
        let s4 :=
          if ur.created then { s3 with pending := mark_promoted row s3.pending }
          else
            let details :=
              if !ur.updatedMail && !ur.updatedTel then
                "aucune modification de contact"
              else if ur.updatedMail && ur.updatedTel then "mail + telephone"
              else if ur.updatedMail then "mail"
              else "telephone"
            { s3 with pending := mark_updated row details s3.pending }
        ({ s4 with
            sent := s4.sent ++ [(proxyE164, senderE164, confirmationSmsBody)] },
          .ok .empty)
  | none =>
    match get_by_proxy_number proxyE164 s.clients with
    | none => (s, .ok (.message "Ce numéro proxy n'est pas reconnu."))
    | some client =>
      let senderCc := extract_country_code senderE164
      if !originInEu senderCc then
        (s, .ok (.message "Ce numéro n'est pas accessible depuis votre pays."))
      else
        let realE164 := ensurePlus client.client_real_phone
        if senderE164 = realE164 then
          let last := dropSpaces (pyStrip client.client_last_caller)
          if last = "" then
            (s, .ok (.message "Aucun correspondant récent pour ce proxy."))
          else
            ({ s with sent := s.sent ++ [(proxyE164, ensurePlus last, body)] },
              .ok .empty)
        else
          let s1 :=
            { s with
              clients := update_last_caller_by_proxy proxyE164 senderE164 s.clients }
          ({ s1 with sent := s1.sent ++ [(proxyE164, realE164, body)] },
            .ok .empty)

/-- Embedding of `MessageRoutingService.handle_incoming_sms`
(message_routing_service.py:61-75): `_route_sms` wrapped by
`_with_error_handling`, which turns any escaping exception into the
generic "temporarily unavailable" reply. -/
def handle_incoming_sms (proxyNumber senderNumber body now : String)
    (nowT : Int) (s : SmsState) : SmsState × SmsResponse :=
  match route_sms proxyNumber senderNumber body now nowT s with
  | (s2, .ok r) => (s2, r)
  | (s2, .error _) =>
    (s2, .message "Service SMS temporairement indisponible.")

/-! ## Concrete fixtures used by the closed theorems below -/

/-- A pending confirmation as a successful CreatePending leaves it: proxy
reserved with `reserved_token = pending_id`, OTP stored, status PENDING. -/
def janePending : PendingRow :=
  ⟨"P1", "Jane", "jane@example.com", "+33600000001", "+33999000111",
    "123456", "PENDING", "", ""⟩

/-- The pool row backing `janePending`'s reservation. -/
def janePool : PoolRow :=
  ⟨"FR", "+33999000111", "reserved", "", "", "", "Jane", "mobile", "P1",
    .iso 100, ""⟩

/-- System state right after `janePending`'s CreatePending succeeded. -/
def demoState : SmsState := ⟨[janePending], [], [janePool], []⟩

/-- Sheet row 2 of the Clients sheet (reserved for array formulas). -/
def blankClientRow : ClientRow := ⟨"", "", "", "", "", "", "", ""⟩

/-- A provisioned client whose stored country code is `+33`. -/
def bobClient : ClientRow :=
  ⟨"7", "Bob", "bob@example.com", "+33600000001", "+33999000111", "FR",
    "+33", ""⟩

/-- Like `bobClient` but with a recorded last caller. -/
def bobClientWithLast : ClientRow :=
  ⟨"7", "Bob", "bob@example.com", "+33600000001", "+33999000111", "FR",
    "+33", "+33700000002"⟩

/-- An available FR mobile pool row. -/
def freePoolRow : PoolRow :=
  ⟨"FR", "+33999000222", "available", "", "", "", "", "mobile", "",
    .empty, ""⟩

/-- A store environment for one Reserve call: every snapshot holds the one
available row, the generated token is `tok0`, and the verification re-read
returns exactly that token (no interference). -/
def demoReserveEnv : ReserveEnv :=
  ⟨fun _ => [freePoolRow], fun _ => "tok0", fun _ => "tok0", 1000⟩

/-- A client record matching the upsert request only by phone number. -/
def clientPhoneOnly : ClientRow :=
  ⟨"1", "A", "other@example.com", "+33600000001", "", "", "", ""⟩

/-- A client record matching the upsert request only by email. -/
def clientMailOnly : ClientRow :=
  ⟨"2", "B", "jane@example.com", "+33700000002", "", "", "", ""⟩

/-! ## Helper lemmas -/

theorem setAt_length {α : Type} (l : List α) (i : Nat) (f : α → α) :
    (setAt l i f).length = l.length := by
  induction l generalizing i with
  | nil => rfl
  | cons a as ih =>
    cases i with
    | zero => rfl
    | succ n => simp [setAt, ih]

theorem setAt_get?_self {α : Type} (l : List α) (i : Nat) (f : α → α)
    (h : i < l.length) : (setAt l i f).get? i = (l.get? i).map f := by
  induction l generalizing i with
  | nil => simp at h
  | cons a as ih =>
    cases i with
    | zero => rfl
    | succ n =>
      simp only [setAt, List.get?]
      exact ih n (by simpa using h)

theorem setAt_get?_ne {α : Type} (l : List α) (i j : Nat) (f : α → α)
    (h : i ≠ j) : (setAt l i f).get? j = l.get? j := by
  induction l generalizing i j with
  | nil => rfl
  | cons a as ih =>
    cases i with
    | zero =>
      cases j with
      | zero => exact absurd rfl h
      | succ m => rfl
    | succ n =>
      cases j with
      | zero => rfl
      | succ m =>
        simp only [setAt, List.get?]
        exact ih n m (fun hnm => h (by rw [hnm]))

theorem findWithIdx_spec {α : Type} (p : α → Bool) (l : List α) (i : Nat)
    (a : α) (h : findWithIdx p l = some (i, a)) :
    l.get? i = some a ∧ p a = true := by
  induction l generalizing i with
  | nil => simp [findWithIdx] at h
  | cons b bs ih =>
    by_cases hb : p b
    · simp [findWithIdx, hb] at h
      obtain ⟨hi, hab⟩ := h
      subst hi; subst hab
      exact ⟨rfl, hb⟩
    · rw [findWithIdx, if_neg (by simpa using hb), Option.map_eq_some'] at h
      obtain ⟨⟨j, c⟩, hrec, hpair⟩ := h
      have hji : j + 1 = i := congrArg Prod.fst hpair
      have hca : c = a := congrArg Prod.snd hpair
      subst hca
      obtain ⟨hg, hp⟩ := ih j hrec
      cases i with
      | zero => omega
      | succ m =>
        have : j = m := by omega
        subst this
        exact ⟨hg, hp⟩

theorem reserveLoop_attempts_le (env : ReserveEnv) (stale : Int)
    (country requested : String) (k t : Nat) :
    (reserveLoop env stale country requested k t).2 ≤ t := by
  induction t generalizing k with
  | zero => simp [reserveLoop]
  | succ n ih =>
    simp only [reserveLoop]
    split
    · simp
    · split
      · split
        · simp
        · simpa using Nat.succ_le_succ (ih (k + 1))
      · simpa using Nat.succ_le_succ (ih (k + 1))

theorem reserveLoop_some_spec (env : ReserveEnv) (stale : Int)
    (country requested : String) (k t : Nat) (e : ReservedEntry)
    (h : (reserveLoop env stale country requested k t).1 = some e) :
    ∃ j idx row, k ≤ j ∧ j < k + t ∧
      findCandidate env.now stale country requested (env.snapshot j) =
        some (idx, row) ∧
      pyStrip (env.readback j) = env.token j ∧
      e = mkReservedEntry idx row (env.token j) env.now := by
  induction t generalizing k with
  | zero => simp [reserveLoop] at h
  | succ n ih =>
    rw [reserveLoop] at h
    by_cases hrows : env.snapshot k = []
    · simp [hrows] at h
    · simp only [if_neg hrows] at h
      cases hc : findCandidate env.now stale country requested (env.snapshot k) with
      | some p =>
        obtain ⟨idx, row⟩ := p
        rw [hc] at h
        by_cases hrb : pyStrip (env.readback k) = env.token k
        · simp only [if_pos hrb] at h
          exact ⟨k, idx, row, Nat.le_refl k, by omega, hc, hrb,
            (Option.some.inj h).symm⟩
        · simp only [if_neg hrb] at h
          obtain ⟨j, i2, r2, hkj, hjt, hfc, hr, he⟩ := ih (k + 1) h
          exact ⟨j, i2, r2, by omega, by omega, hfc, hr, he⟩
      | none =>
        rw [hc] at h
        obtain ⟨j, i2, r2, hkj, hjt, hfc, hr, he⟩ := ih (k + 1) h
        exact ⟨j, i2, r2, by omega, by omega, hfc, hr, he⟩

theorem reserveLoop_none_of_no_candidate (env : ReserveEnv) (stale : Int)
    (country requested : String) (k t : Nat)
    (h : ∀ j, findCandidate env.now stale country requested (env.snapshot j) = none) :
    (reserveLoop env stale country requested k t).1 = none := by
  induction t generalizing k with
  | zero => simp [reserveLoop]
  | succ n ih =>
    rw [reserveLoop]
    by_cases hrows : env.snapshot k = []
    · simp [hrows]
    · simp only [if_neg hrows, h k]
      simpa using ih (k + 1)

theorem reserveLoop_none_of_all_mismatch (env : ReserveEnv) (stale : Int)
    (country requested : String) (k t : Nat)
    (h : ∀ j, pyStrip (env.readback j) ≠ env.token j) :
    (reserveLoop env stale country requested k t).1 = none := by
  induction t generalizing k with
  | zero => simp [reserveLoop]
  | succ n ih =>
    rw [reserveLoop]
    by_cases hrows : env.snapshot k = []
    · simp [hrows]
    · simp only [if_neg hrows]
      cases hc : findCandidate env.now stale country requested (env.snapshot k) with
      | some p =>
        obtain ⟨idx, row⟩ := p
        simp only [if_neg (h k)]
        simpa using ih (k + 1)
      | none =>
        simpa using ih (k + 1)

theorem reserveLoop_success_step (env : ReserveEnv) (stale : Int)
    (country requested : String) (k t : Nat) (idx : Nat) (row : PoolRow)
    (hrows : env.snapshot k ≠ [])
    (hc : findCandidate env.now stale country requested (env.snapshot k) =
      some (idx, row))
    (hrb : pyStrip (env.readback k) = env.token k) :
    reserveLoop env stale country requested k (t + 1) =
      (some (mkReservedEntry idx row (env.token k) env.now), 1) := by
  rw [reserveLoop]
  simp [if_neg hrows, hc, hrb]

theorem reserveLoop_mismatch_step (env : ReserveEnv) (stale : Int)
    (country requested : String) (k t : Nat) (idx : Nat) (row : PoolRow)
    (hrows : env.snapshot k ≠ [])
    (hc : findCandidate env.now stale country requested (env.snapshot k) =
      some (idx, row))
    (hrb : pyStrip (env.readback k) ≠ env.token k) :
    reserveLoop env stale country requested k (t + 1) =
      ((reserveLoop env stale country requested (k + 1) t).1,
        (reserveLoop env stale country requested (k + 1) t).2 + 1) := by
  rw [reserveLoop]
  simp [if_neg hrows, hc, hrb]

theorem finalize_pool_assignment_raises
    (proxyNumber pendingId clientId attributionName nowStr : String)
    (nowT : Int) (pools : List PoolRow) :
    finalize_pool_assignment proxyNumber pendingId clientId attributionName
      nowStr nowT pools = Except.error PyErr.attributeError := rfl

/-! ## Claim theorems -/

/-- C3: for every input, `ConfirmationService.finalize_pool_assignment`
raises `AttributeError` before touching the pool, because
`PoolsRepository.find_row_by_phone_number` is nested inside the body of
`mark_assigned` and is not an attribute of the class; consequently, on a
successful OTP verification the SMS handler marks the pending row VERIFIED,
upserts the client, then fails in finalization, the catch-all wrapper
replies "temporarily unavailable", the pending row is never marked
PROMOTED or UPDATED, and the pool is never touched through this path. -/
theorem C3_finalize_always_raises :
    (∀ proxyNumber pendingId clientId attributionName nowStr nowT pools,
      finalize_pool_assignment proxyNumber pendingId clientId attributionName
        nowStr nowT pools = Except.error PyErr.attributeError) ∧
    (∀ proxyNumber senderNumber body nowStr nowT (s : SmsState) row rec0,
      find_pending_by_proxy_and_phone (ensurePlus proxyNumber)
        (ensurePlus senderNumber) s.pending = some (row, rec0) →
      pyStrip rec0.otp ≠ "" →
      extract_otp body = pyStrip rec0.otp →
      (handle_incoming_sms proxyNumber senderNumber body nowStr nowT s).2 =
        SmsResponse.message "Service SMS temporairement indisponible." ∧
      (handle_incoming_sms proxyNumber senderNumber body nowStr nowT s).1.pools =
        s.pools ∧
      ((handle_incoming_sms proxyNumber senderNumber body nowStr nowT
          s).1.pending.get? row).map PendingRow.status = some "VERIFIED") := by
  constructor
  · intro proxyNumber pendingId clientId attributionName nowStr nowT pools
    rfl
  · intro proxyNumber senderNumber body nowStr nowT s row rec0 hfind hotp hprov
    have hget : s.pending.get? row = some rec0 :=
      (findWithIdx_spec _ _ _ _ hfind).1
    have hrow : row < s.pending.length := List.get?_eq_some.mp hget |>.choose
    have hroute :
        route_sms proxyNumber senderNumber body nowStr nowT s =
          ({ s with
              pending := mark_verified row nowStr s.pending,
              clients :=
                (upsert_client_and_attach_proxy (pyStrip rec0.client_name)
                  (pyStrip rec0.client_mail) (pyStrip rec0.client_real_phone)
                  (pyStrip rec0.proxy_number) (pyStrip rec0.pending_id)
                  s.pools s.clients).1 },
            Except.error PyErr.attributeError) := by
      unfold route_sms
      simp only [hfind]
      simp only [if_neg hotp, if_neg (not_not_intro hprov),
        finalize_pool_assignment_raises]
    refine ⟨?_, ?_, ?_⟩
    · unfold handle_incoming_sms
      rw [hroute]
    · unfold handle_incoming_sms
      rw [hroute]
    · unfold handle_incoming_sms
      rw [hroute]
      simp only [mark_verified]
      rw [setAt_get?_self s.pending row _ hrow, hget]
      rfl

/-- Witness for C3: concrete instantiation of the verified-OTP path on
`demoState`. -/
theorem C3_finalize_always_raises_witness :
    (handle_incoming_sms "+33999000111" "+33600000001" " 123456 " "T2" 0
        demoState).2 =
      SmsResponse.message "Service SMS temporairement indisponible." ∧
    (handle_incoming_sms "+33999000111" "+33600000001" " 123456 " "T2" 0
        demoState).1.pools = demoState.pools ∧
    ((handle_incoming_sms "+33999000111" "+33600000001" " 123456 " "T2" 0
        demoState).1.pending.get? 0).map PendingRow.status = some "VERIFIED" := by
  exact C3_finalize_always_raises.2 "+33999000111" "+33600000001" " 123456 "
    "T2" 0 demoState 0 janePending (by decide) (by decide) (by decide)

/-- C1: on the code as written the OTP round trip diverges from the claim.
With a pending row whose stored OTP is 123456, an inbound message from the
client's phone carrying exactly 123456 does NOT end in PROMOTED or UPDATED:
the row is marked VERIFIED and the handler answers "Service SMS
temporairement indisponible." because finalization raises (see C3); the
pool row is untouched.  A different 6-digit string does behave as claimed:
InvalidCode and no state change. -/
theorem C1_otp_roundtrip_eval :
    ((handle_incoming_sms "+33999000111" "+33600000001" "123456" "T1" 0
        demoState).2 =
      SmsResponse.message "Service SMS temporairement indisponible." ∧
     ((handle_incoming_sms "+33999000111" "+33600000001" "123456" "T1" 0
        demoState).1.pending.get? 0).map PendingRow.status = some "VERIFIED" ∧
     (handle_incoming_sms "+33999000111" "+33600000001" "123456" "T1" 0
        demoState).1.pools = demoState.pools) ∧
    handle_incoming_sms "+33999000111" "+33600000001" "654321" "T1" 0
        demoState =
      (demoState, SmsResponse.message "Code invalide. Réessayez.") := by
  exact ⟨⟨rfl, rfl, rfl⟩, rfl⟩

/-- C2 counterexample: with the owning client's stored
`client_country_code = "+33"`, an inbound call from `+49123456789` is NOT
rejected by the country gate — it is connected to the client's real
number, because the gate only tests membership of the origin's dialing
code in the EU/EEA/Swiss allow-list and `+49` is a member. -/
theorem C2_country_gate_counterexample :
    (handle_incoming_call "+33999000111" "+49123456789"
        [blankClientRow, bobClient]).2 =
      VoiceDecision.dial "+33999000111" "+33600000001" ∧
    (handle_incoming_call "+33999000111" "+49123456789"
        [blankClientRow, bobClient]).2 ≠
      VoiceDecision.say "Ce numéro n'est pas accessible depuis votre pays." ∧
    bobClient.client_country_code = "+33" := by
  exact ⟨rfl, by decide, rfl⟩

/-- C2 (amended): the country gate never consults the client's stored
`client_country_code`; for both voice and message events it extracts the
origin's dialing code (first three characters after normalisation) and
requires it to start with a member of the fixed EU/EEA/Switzerland
allow-list.  An origin outside the list is rejected with "not accessible
from your country" and no state is mutated; `+49123456789` passes the
gate. -/
theorem C2_country_gate_amended :
    (∀ (clients : List ClientRow) proxyNumber callerNumber c,
      get_by_proxy_number proxyNumber clients = some c →
      originInEu (extract_country_code callerNumber) = false →
      handle_incoming_call proxyNumber callerNumber clients =
        (clients,
          VoiceDecision.say "Ce numéro n'est pas accessible depuis votre pays.")) ∧
    (∀ (s : SmsState) proxyNumber senderNumber body nowStr nowT c,
      find_pending_by_proxy_and_phone (ensurePlus proxyNumber)
        (ensurePlus senderNumber) s.pending = none →
      get_by_proxy_number (ensurePlus proxyNumber) s.clients = some c →
      originInEu (extract_country_code (ensurePlus senderNumber)) = false →
      handle_incoming_sms proxyNumber senderNumber body nowStr nowT s =
        (s,
          SmsResponse.message "Ce numéro n'est pas accessible depuis votre pays.")) ∧
    originInEu (extract_country_code "+49123456789") = true := by
  refine ⟨?_, ?_, by decide⟩
  · intro clients proxyNumber callerNumber c hclient hgate
    unfold handle_incoming_call
    simp only [hclient, hgate]
    simp
  · intro s proxyNumber senderNumber body nowStr nowT c hfind hclient hgate
    unfold handle_incoming_sms route_sms
    simp only [hfind, hclient, hgate]
    simp

/-- Witness for C2's amended theorem: a call and a message from a United
States number (+1) to Bob's proxy are both rejected by the gate with the
Clients sheet untouched. -/
theorem C2_country_gate_amended_witness :
    handle_incoming_call "+33999000111" "+12025550100"
        [blankClientRow, bobClient] =
      ([blankClientRow, bobClient],
        VoiceDecision.say "Ce numéro n'est pas accessible depuis votre pays.") ∧
    handle_incoming_sms "+33999000111" "+12025550100" "hello" "T1" 0
        ⟨[], [blankClientRow, bobClient], [], []⟩ =
      (⟨[], [blankClientRow, bobClient], [], []⟩,
        SmsResponse.message "Ce numéro n'est pas accessible depuis votre pays.") := by
  exact ⟨C2_country_gate_amended.1 [blankClientRow, bobClient] "+33999000111"
      "+12025550100" bobClient (by decide) (by decide),
    C2_country_gate_amended.2.1 ⟨[], [blankClientRow, bobClient], [], []⟩
      "+33999000111" "+12025550100" "hello" "T1" 0 bobClient (by decide)
      (by decide) (by decide)⟩

/-- C4: every Reserve call consumes at most `max_tries` scan/write/re-read
attempts; a successful result comes from some attempt whose verification
re-read returned exactly the token written, and is the first candidate row
of that attempt's snapshot; when no snapshot ever offers a matching row, or
every attempt's re-read is clobbered, the call returns the pool-exhausted
failure (`none`); per attempt, a matching re-read succeeds immediately with
that entry and a mismatch abandons the row and restarts the scan on the
next attempt. -/
theorem C4_reserve_bounded_write_verify :
    ∀ (env : ReserveEnv) (countryIso numberType : String) (maxTries : Nat)
      (stale : Int),
      (reserve_first_available env countryIso numberType maxTries stale).2 ≤
        maxTries ∧
      (∀ e,
        (reserve_first_available env countryIso numberType maxTries stale).1 =
          some e →
        ∃ j idx row, j < maxTries ∧
          findCandidate env.now stale (normCountry countryIso)
            (normRequestedType numberType) (env.snapshot j) = some (idx, row) ∧
          pyStrip (env.readback j) = env.token j ∧
          e = mkReservedEntry idx row (env.token j) env.now) ∧
      ((∀ j, findCandidate env.now stale (normCountry countryIso)
          (normRequestedType numberType) (env.snapshot j) = none) →
        (reserve_first_available env countryIso numberType maxTries stale).1 =
          none) ∧
      ((∀ j, pyStrip (env.readback j) ≠ env.token j) →
        (reserve_first_available env countryIso numberType maxTries stale).1 =
          none) ∧
      (∀ k t idx row, env.snapshot k ≠ [] →
        findCandidate env.now stale (normCountry countryIso)
          (normRequestedType numberType) (env.snapshot k) = some (idx, row) →
        (pyStrip (env.readback k) = env.token k →
          reserveLoop env stale (normCountry countryIso)
            (normRequestedType numberType) k (t + 1) =
            (some (mkReservedEntry idx row (env.token k) env.now), 1)) ∧
        (pyStrip (env.readback k) ≠ env.token k →
          reserveLoop env stale (normCountry countryIso)
            (normRequestedType numberType) k (t + 1) =
            ((reserveLoop env stale (normCountry countryIso)
                (normRequestedType numberType) (k + 1) t).1,
              (reserveLoop env stale (normCountry countryIso)
                (normRequestedType numberType) (k + 1) t).2 + 1))) := by
  intro env countryIso numberType maxTries stale
  refine ⟨reserveLoop_attempts_le env stale _ _ 0 maxTries, ?_, ?_, ?_, ?_⟩
  · intro e he
    obtain ⟨j, idx, row, _, hj, hfc, hrb, hEq⟩ :=
      reserveLoop_some_spec env stale _ _ 0 maxTries e he
    exact ⟨j, idx, row, by omega, hfc, hrb, hEq⟩
  · intro h
    exact reserveLoop_none_of_no_candidate env stale _ _ 0 maxTries h
  · intro h
    exact reserveLoop_none_of_all_mismatch env stale _ _ 0 maxTries h
  · intro k t idx row hrows hfc
    exact ⟨fun hrb =>
        reserveLoop_success_step env stale _ _ k t idx row hrows hfc hrb,
      fun hrb =>
        reserveLoop_mismatch_step env stale _ _ k t idx row hrows hfc hrb⟩

/-- Witness for C4: against a store with one available FR mobile row and an
uncontended re-read, Reserve keeps within the 10-attempt bound and succeeds
on the first attempt with that row. -/
theorem C4_reserve_bounded_write_verify_witness :
    (reserve_first_available demoReserveEnv "fr" "Mobile" 10 10).2 ≤ 10 ∧
    reserveLoop demoReserveEnv 10 "FR" "mobile" 0 10 =
      (some (mkReservedEntry 0 freePoolRow "tok0" 1000), 1) := by
  have h := C4_reserve_bounded_write_verify demoReserveEnv "fr" "Mobile" 10 10
  refine ⟨h.1, ?_⟩
  exact (h.2.2.2.2 0 9 0 freePoolRow (by decide) (by decide)).1 (by decide)

/-- C5: `finalize_assignment_keep_friendly` succeeds iff the token passed
in equals (after stripping) the row's current reservation-token cell at the
moment of the check; on a mismatch it issues no writes and leaves the sheet
unchanged; in particular, after a Release of the row's token, finalizing
with the old token fails and writes nothing. -/
theorem C5_finalize_token_integrity :
    ∀ (s : List PoolRow) (rowIndex : Nat) (token : String)
      (reservedAt : TimeStr) (byId dateAttr attrName nowStr : String),
      ((finalizeRun s rowIndex token reservedAt byId dateAttr attrName
          nowStr).1 = true ↔
        pyStrip (tokenCellAt s rowIndex) = pyStrip token) ∧
      ((finalizeRun s rowIndex token reservedAt byId dateAttr attrName
          nowStr).1 = false →
        (finalizeRun s rowIndex token reservedAt byId dateAttr attrName
          nowStr).2 = s ∧
        (finalize_assignment_keep_friendly s rowIndex token reservedAt byId
          dateAttr attrName nowStr).2 = []) ∧
      (∀ r, s.get? rowIndex = some r →
        pyLower (pyStrip r.status) = "reserved" →
        pyStrip r.reserved_token = pyStrip token →
        pyStrip token ≠ "" →
        (finalizeRun (release_reservation_by_token token s).2 rowIndex token
          reservedAt byId dateAttr attrName nowStr).1 = false ∧
        (finalizeRun (release_reservation_by_token token s).2 rowIndex token
          reservedAt byId dateAttr attrName nowStr).2 =
          (release_reservation_by_token token s).2) := by
  intro s rowIndex token reservedAt byId dateAttr attrName nowStr
  have hsplit : ∀ (s2 : List PoolRow),
      pyStrip (tokenCellAt s2 rowIndex) ≠ pyStrip token →
      (finalizeRun s2 rowIndex token reservedAt byId dateAttr attrName
          nowStr).1 = false ∧
      (finalizeRun s2 rowIndex token reservedAt byId dateAttr attrName
          nowStr).2 = s2 := by
    intro s2 hne
    unfold finalizeRun finalize_assignment_keep_friendly
    simp only [if_pos hne]
    exact ⟨by trivial, by rfl⟩
  refine ⟨?_, ?_, ?_⟩
  · by_cases h : pyStrip (tokenCellAt s rowIndex) = pyStrip token
    · constructor
      · intro _; exact h
      · intro _
        unfold finalizeRun finalize_assignment_keep_friendly
        simp [if_neg (not_not_intro h)]
    · constructor
      · intro htrue
        exact absurd ((hsplit s h).1 ▸ htrue) (by simp)
      · intro h2; exact absurd h2 h
  · intro hfalse
    by_cases h : pyStrip (tokenCellAt s rowIndex) = pyStrip token
    · exfalso
      unfold finalizeRun finalize_assignment_keep_friendly at hfalse
      simp [if_neg (not_not_intro h)] at hfalse
    · refine ⟨(hsplit s h).2, ?_⟩
      unfold finalize_assignment_keep_friendly
      simp [if_pos h]
  · intro r hget hst htok hne
    have hrel : (release_reservation_by_token token s).2 =
        s.map (releaseRow (pyStrip token)) := by
      unfold release_reservation_by_token
      simp [if_neg hne]
    have hmatch : releaseMatches (pyStrip token) r = true := by
      unfold releaseMatches
      simp [hst, htok]
    have hcell :
        tokenCellAt (release_reservation_by_token token s).2 rowIndex = "" := by
      rw [hrel]
      unfold tokenCellAt
      rw [List.get?_eq_getElem?, List.getElem?_map, ← List.get?_eq_getElem?,
        hget]
      simp only [Option.map_some']
      unfold releaseRow
      simp [hmatch]
    have hcellne :
        pyStrip (tokenCellAt (release_reservation_by_token token s).2
          rowIndex) ≠ pyStrip token := by
      rw [hcell]
      intro hcontr
      exact hne hcontr.symm
    exact hsplit _ hcellne

/-- Witness for C5: on the reserved fixture row, finalize succeeds with the
matching token and fails (leaving the sheet as released) after the token's
Release. -/
theorem C5_finalize_token_integrity_witness :
    ((finalizeRun [janePool] 0 "P1" (TimeStr.iso 100) "8" "D" "Jane"
        "NOW").1 = true ↔
      pyStrip (tokenCellAt [janePool] 0) = pyStrip "P1") ∧
    (finalizeRun (release_reservation_by_token "P1" [janePool]).2 0 "P1"
      (TimeStr.iso 100) "8" "D" "Jane" "NOW").1 = false := by
  have h := C5_finalize_token_integrity [janePool] 0 "P1" (TimeStr.iso 100)
    "8" "D" "Jane" "NOW"
  exact ⟨h.1, (h.2.2 janePool (by decide) (by decide) (by decide)
    (by decide)).1⟩

/-- C6: a `reserved` pool row matching the requested country and number
type is a candidate for a new Reserve exactly when its parsed
`reserved_at` is strictly older than `now` minus the staleness threshold;
and Reserve only ever returns a row that was a candidate of the scanned
snapshot, so a `reserved` row younger than the threshold is never
selected. -/
theorem C6_stale_reclamation :
    (∀ (now stale t : Int) (country requested : String) (r : PoolRow),
      pyLower (pyStrip r.status) = "reserved" →
      pyUpper (pyStrip r.country_iso) = country →
      pyLower (pyStrip r.number_type) = requested →
      r.reserved_at = TimeStr.iso t →
      (rowIsCandidate now stale country requested r = true ↔
        t < now - stale)) ∧
    (∀ (env : ReserveEnv) (stale : Int) (country requested : String)
      (maxTries : Nat) (e : ReservedEntry),
      (reserveLoop env stale country requested 0 maxTries).1 = some e →
      ∃ j idx row,
        findCandidate env.now stale country requested (env.snapshot j) =
          some (idx, row) ∧
        rowIsCandidate env.now stale country requested row = true ∧
        e.row_index = idx ∧ e.phone_number = pyStrip row.phone_number) := by
  constructor
  · intro now stale t country requested r hst hc hn hra
    have hres : pyLower (pyStrip "reserved") = "reserved" := by decide
    have hcand : rowIsCandidate now stale country requested r =
        decide (t < now - stale) := by
      unfold rowIsCandidate is_stale_reserved
      rw [hst, hc, hn, hra, hres]
      simp
    rw [hcand]
    exact decide_eq_true_iff
  · intro env stale country requested maxTries e he
    obtain ⟨j, idx, row, _, _, hfc, _, hEq⟩ :=
      reserveLoop_some_spec env stale country requested 0 maxTries e he
    have hrow := (findWithIdx_spec _ _ _ _ hfc).2
    exact ⟨j, idx, row, hfc, hrow, by rw [hEq]; rfl, by rw [hEq]; rfl⟩

/-- Witness for C6: the fixture reservation from minute 100 is reclaimable
at minute 1000 and not reclaimable at minute 105 (threshold 10 minutes). -/
theorem C6_stale_reclamation_witness :
    rowIsCandidate 1000 10 "FR" "mobile" janePool = true ∧
    rowIsCandidate 105 10 "FR" "mobile" janePool = false := by
  have h1 := C6_stale_reclamation.1 1000 10 100 "FR" "mobile" janePool
    (by decide) (by decide) (by decide) rfl
  have h2 := C6_stale_reclamation.1 105 10 100 "FR" "mobile" janePool
    (by decide) (by decide) (by decide) rfl
  refine ⟨h1.mpr (by decide), ?_⟩
  rw [← Bool.not_eq_true]
  intro hx
  exact absurd (h2.mp hx) (by decide)

theorem releaseRow_nomatch (token : String) (r : PoolRow) :
    releaseMatches token (releaseRow token r) = false := by
  unfold releaseRow
  by_cases h : releaseMatches token r
  · simp only [if_pos h]
    unfold releaseMatches
    simp [show pyLower (pyStrip "available") = "available" from by decide]
  · simp only [if_neg h]
    cases hb : releaseMatches token r
    · rfl
    · exact absurd hb h

theorem release_of_no_match (s : List PoolRow) (token : String)
    (h : ∀ r ∈ s, releaseMatches (pyStrip token) r = false) :
    release_reservation_by_token token s = (0, s) := by
  unfold release_reservation_by_token
  by_cases htok : pyStrip token = ""
  · simp [htok]
  · simp only [if_neg htok]
    refine Prod.ext ?_ ?_
    · simp only
      rw [List.countP_eq_zero]
      intro r hr
      simp [h r hr]
    · simp only
      rw [List.map_congr_left, List.map_id]
      intro r hr
      unfold releaseRow
      simp [h r hr]

/-- C7: releasing a token that matches no (reserved, token) row returns 0
and changes no rows, and for every store state and token, Release applied
to the state Release leaves behind releases 0 rows and changes nothing —
i.e. two consecutive Releases are equivalent to one. -/
theorem C7_release_idempotent :
    (∀ (s : List PoolRow) (token : String),
      (∀ r ∈ s, releaseMatches (pyStrip token) r = false) →
      release_reservation_by_token token s = (0, s)) ∧
    (∀ (s : List PoolRow) (token : String),
      release_reservation_by_token token
        (release_reservation_by_token token s).2 =
        (0, (release_reservation_by_token token s).2)) := by
  refine ⟨release_of_no_match, ?_⟩
  intro s token
  by_cases htok : pyStrip token = ""
  · unfold release_reservation_by_token
    simp [htok]
  · have h2 : (release_reservation_by_token token s).2 =
        s.map (releaseRow (pyStrip token)) := by
      unfold release_reservation_by_token
      simp [if_neg htok]
    apply release_of_no_match
    intro r hr
    rw [h2] at hr
    obtain ⟨a, _, ha⟩ := List.mem_map.mp hr
    rw [← ha]
    exact releaseRow_nomatch (pyStrip token) a

/-- Witness for C7: an unknown token releases nothing from the fixture
pool, and re-releasing the fixture's token after its release changes
nothing. -/
theorem C7_release_idempotent_witness :
    release_reservation_by_token "ghost" [janePool] = (0, [janePool]) ∧
    release_reservation_by_token "P1"
        (release_reservation_by_token "P1" [janePool]).2 =
      (0, (release_reservation_by_token "P1" [janePool]).2) := by
  exact ⟨C7_release_idempotent.1 [janePool] "ghost" (by decide),
    C7_release_idempotent.2 [janePool] "P1"⟩

theorem find?_eq_some_of_prefix_none {α : Type} (p : α → Bool)
    (pre post : List α) (c : α) (hpre : ∀ r ∈ pre, p r = false)
    (hc : p c = true) : (pre ++ c :: post).find? p = some c := by
  induction pre with
  | nil => simp [List.find?_cons_of_pos, hc]
  | cons a pre ih =>
    have ha := hpre a (by simp)
    rw [List.cons_append, List.find?_cons_of_neg]
    · exact ih (fun r hr => hpre r (by simp [hr]))
    · simp [ha]

theorem updateLastCallerAux_append (target caller : String)
    (pre post : List ClientRow) (c : ClientRow)
    (hc : proxyRecMatches target c = true) :
    ∀ k, 1 ≤ k + pre.length →
    (∀ r ∈ pre, proxyRecMatches target r = false) →
    updateLastCallerAux target caller k (pre ++ c :: post) =
      pre ++ { c with client_last_caller := caller } :: post := by
  induction pre with
  | nil =>
    intro k hk hpre
    have hk0 : ¬k = 0 := by
      simp only [List.length_nil] at hk
      omega
    simp only [List.nil_append]
    simp [updateLastCallerAux, hk0, hc]
  | cons a pre ih =>
    intro k hk hpre
    have ha := hpre a (by simp)
    by_cases hk0 : k = 0
    · subst hk0
      have step : updateLastCallerAux target caller 0
          (a :: (pre ++ c :: post)) =
          a :: updateLastCallerAux target caller 1 (pre ++ c :: post) := by
        simp [updateLastCallerAux]
      rw [List.cons_append, step,
        ih 1 (by omega) (fun r hr => hpre r (by simp [hr]))]
      rfl
    · have step : updateLastCallerAux target caller k
          (a :: (pre ++ c :: post)) =
          a :: updateLastCallerAux target caller (k + 1) (pre ++ c :: post) := by
        simp [updateLastCallerAux, hk0, ha]
      rw [List.cons_append, step,
        ih (k + 1) (by omega) (fun r hr => hpre r (by simp [hr]))]
      rfl

/-- C8: for an inbound event (voice or SMS) to a proxy owned by client `c`
that passes the country gate — with the owner's record at sheet row ≥ 3
(list index ≥ 1) as the sheet layout guarantees — a self-callback with no
recorded last caller is rejected with "no recent contact" and no state is
mutated; a self-callback with a recorded last caller is connected/relayed
to that number, leaving `client_last_caller` unchanged; and a third-party
event first persists the origin as the new `client_last_caller` and then
connects/relays to the client's real number with the proxy as the
presented caller id / reply-from address. -/
theorem C8_last_caller_reflection :
    ∀ (pre post : List ClientRow) (c : ClientRow) (s : SmsState)
      (proxyNumber originNumber body nowStr : String) (nowT : Int),
      strStarts proxyNumber "+" = true →
      strStarts originNumber "+" = true →
      1 ≤ pre.length →
      (∀ r ∈ pre, proxyRecMatches (normProxyCmp proxyNumber) r = false) →
      proxyRecMatches (normProxyCmp proxyNumber) c = true →
      s.clients = pre ++ c :: post →
      find_pending_by_proxy_and_phone proxyNumber originNumber s.pending =
        none →
      originInEu (extract_country_code originNumber) = true →
      ((originNumber = ensurePlus c.client_real_phone →
        dropSpaces (pyStrip c.client_last_caller) = "" →
        handle_incoming_call proxyNumber originNumber s.clients =
          (s.clients, VoiceDecision.say "Aucun appelant récent.") ∧
        handle_incoming_sms proxyNumber originNumber body nowStr nowT s =
          (s, SmsResponse.message "Aucun correspondant récent pour ce proxy.")) ∧
      (originNumber = ensurePlus c.client_real_phone →
        dropSpaces (pyStrip c.client_last_caller) ≠ "" →
        handle_incoming_call proxyNumber originNumber s.clients =
          (s.clients, VoiceDecision.dial proxyNumber
            (ensurePlus (dropSpaces (pyStrip c.client_last_caller)))) ∧
        handle_incoming_sms proxyNumber originNumber body nowStr nowT s =
          ({ s with
              sent := s.sent ++
                [(proxyNumber,
                  ensurePlus (dropSpaces (pyStrip c.client_last_caller)),
                  body)] },
            SmsResponse.empty)) ∧
      (originNumber ≠ ensurePlus c.client_real_phone →
        handle_incoming_call proxyNumber originNumber s.clients =
          (pre ++ { c with client_last_caller := originNumber } :: post,
            VoiceDecision.dial proxyNumber (ensurePlus c.client_real_phone)) ∧
        handle_incoming_sms proxyNumber originNumber body nowStr nowT s =
          ({ s with
              clients :=
                pre ++ { c with client_last_caller := originNumber } :: post,
              sent := s.sent ++
                [(proxyNumber, ensurePlus c.client_real_phone, body)] },
            SmsResponse.empty))) := by
  intro pre post c s proxyNumber originNumber body nowStr nowT hpp hop hpre1
    hpre hc hclients hfind hgate
  have hep : ensurePlus proxyNumber = proxyNumber := by
    unfold ensurePlus
    rw [if_pos hpp]
  have heo : ensurePlus originNumber = originNumber := by
    unfold ensurePlus
    rw [if_pos hop]
  have hres : get_by_proxy_number proxyNumber s.clients = some c := by
    unfold get_by_proxy_number
    rw [hclients]
    exact find?_eq_some_of_prefix_none _ pre post c hpre hc
  have hupd : update_last_caller_by_proxy proxyNumber originNumber s.clients =
      pre ++ { c with client_last_caller := originNumber } :: post := by
    unfold update_last_caller_by_proxy
    rw [hclients]
    exact updateLastCallerAux_append _ _ pre post c hc 0 (by omega) hpre
  refine ⟨?_, ?_, ?_⟩
  · intro horig hlast
    constructor
    · unfold handle_incoming_call
      rw [hres]
      simp only [hgate, Bool.not_true, Bool.false_eq_true, if_false]
      rw [if_pos horig, if_pos hlast]
    · unfold handle_incoming_sms route_sms
      simp only [hep, heo, hfind, hres]
      simp only [hgate, Bool.not_true, Bool.false_eq_true, if_false]
      rw [if_pos horig, if_pos hlast]
  · intro horig hlast
    constructor
    · unfold handle_incoming_call
      rw [hres]
      simp only [hgate, Bool.not_true, Bool.false_eq_true, if_false]
      rw [if_pos horig, if_neg hlast, hep]
    · unfold handle_incoming_sms route_sms
      simp only [hep, heo, hfind, hres]
      simp only [hgate, Bool.not_true, Bool.false_eq_true, if_false]
      rw [if_pos horig, if_neg hlast]
  · intro horig
    constructor
    · unfold handle_incoming_call
      rw [hres]
      simp only [hgate, Bool.not_true, Bool.false_eq_true, if_false]
      rw [if_neg horig, hep, hupd]
    · unfold handle_incoming_sms route_sms
      simp only [hep, heo, hfind, hres]
      simp only [hgate, Bool.not_true, Bool.false_eq_true, if_false]
      rw [if_neg horig, hupd]

/-- Witness for C8: on a two-row Clients sheet (formula row then Bob), a
third-party SMS from +33700000009 is relayed to Bob's real number and
recorded as his last caller, and Bob's self-callback is then routed to that
recorded number. -/
theorem C8_last_caller_reflection_witness :
    (handle_incoming_sms "+33999000111" "+33700000009" "hi" "T1" 0
        ⟨[], [blankClientRow, bobClient], [], []⟩ =
      (⟨[], [blankClientRow,
          { bobClient with client_last_caller := "+33700000009" }], [],
          [("+33999000111", "+33600000001", "hi")]⟩,
        SmsResponse.empty)) ∧
    handle_incoming_call "+33999000111" "+33600000001"
        [blankClientRow, bobClientWithLast] =
      ([blankClientRow, bobClientWithLast],
        VoiceDecision.dial "+33999000111" "+33700000002") := by
  constructor
  · have h := (C8_last_caller_reflection [blankClientRow] [] bobClient
      ⟨[], [blankClientRow, bobClient], [], []⟩ "+33999000111" "+33700000009"
      "hi" "T1" 0 (by decide) (by decide) (by decide) (by decide) (by decide)
      rfl (by decide) (by decide)).2.2 (by decide)
    exact h.2
  · have h := (C8_last_caller_reflection [blankClientRow] [] bobClientWithLast
      ⟨[], [blankClientRow, bobClientWithLast], [], []⟩ "+33999000111"
      "+33600000001" "x" "T1" 0 (by decide) (by decide) (by decide)
      (by decide) (by decide) rfl (by decide) (by decide)).2.1 (by decide)
      (by decide)
    exact h.1

theorem upsertFindMatch_eq_find? (emailCmp phoneCmp : String)
    (clients : List ClientRow) :
    upsertFindMatch emailCmp phoneCmp clients =
      (clients.find? (fun r =>
          upsertEmailHit emailCmp r || upsertPhoneHit phoneCmp r)).map
        (fun r => (r.client_id,
          if upsertEmailHit emailCmp r then "email_match"
          else "phone_match")) := by
  induction clients with
  | nil => rfl
  | cons a l ih =>
    by_cases he : upsertEmailHit emailCmp a
    · rw [List.find?_cons_of_pos _ (by simp [he])]
      simp [upsertFindMatch, he]
    · by_cases hp : upsertPhoneHit phoneCmp a
      · rw [List.find?_cons_of_pos _ (by simp [hp])]
        simp [upsertFindMatch, he, hp]
      · rw [List.find?_cons_of_neg _ (by simp [he, hp])]
        simp only [upsertFindMatch, if_neg he, if_neg hp]
        exact ih

/-- C9 counterexample: with a clients table whose first record matches the
pending row's phone only and whose second record matches its email
(case-insensitively), the upsert updates the FIRST record (reason
`phone_match`), not the email match — the scan is per-record in storage
order with email checked before phone within each record, not email-first
globally. -/
theorem C9_upsert_priority_counterexample :
    upsertEmailHit "jane@example.com" clientMailOnly = true ∧
    upsertEmailHit "jane@example.com" clientPhoneOnly = false ∧
    (upsert_client_and_attach_proxy "Jane" "jane@example.com" "+33600000001"
        "+33999000111" "P1" [] [clientPhoneOnly, clientMailOnly]).2.matchReason =
      "phone_match" ∧
    (upsert_client_and_attach_proxy "Jane" "jane@example.com" "+33600000001"
        "+33999000111" "P1" []
        [clientPhoneOnly, clientMailOnly]).2.client.client_id = "1" := by
  exact ⟨rfl, rfl, rfl, rfl⟩

/-- C9 (amended): the upsert scans the clients table in storage order and
picks the first record matching by email or by normalised phone, with
email tested before phone within each record (the pool-based shortcut is
inert, since its repository lookup raises and is swallowed); when no
record matches, a brand-new client is created whose id is the maximum
existing numeric client id plus 1 and appended to the sheet. -/
theorem C9_upsert_priority_amended :
    ∀ (clientName clientMail clientRealPhone proxyNumber pendingId : String)
      (pools : List PoolRow) (clients : List ClientRow),
      upsertFindMatch (pyLower (pyStrip clientMail))
          (dropPlus (e164 clientRealPhone)) clients =
        (clients.find? (fun r =>
            upsertEmailHit (pyLower (pyStrip clientMail)) r ||
            upsertPhoneHit (dropPlus (e164 clientRealPhone)) r)).map
          (fun r => (r.client_id,
            if upsertEmailHit (pyLower (pyStrip clientMail)) r then
              "email_match"
            else "phone_match")) ∧
      (clients.find? (fun r =>
          upsertEmailHit (pyLower (pyStrip clientMail)) r ||
          upsertPhoneHit (dropPlus (e164 clientRealPhone)) r) = none →
        (upsert_client_and_attach_proxy clientName clientMail clientRealPhone
          proxyNumber pendingId pools clients).2.created = true ∧
        (upsert_client_and_attach_proxy clientName clientMail clientRealPhone
          proxyNumber pendingId pools clients).2.client.client_id =
          toString (get_max_client_id clients + 1) ∧
        (upsert_client_and_attach_proxy clientName clientMail clientRealPhone
          proxyNumber pendingId pools clients).1 =
          clientsSave (upsert_client_and_attach_proxy clientName clientMail
            clientRealPhone proxyNumber pendingId pools clients).2.client
            clients) ∧
      (∀ r0, clients.find? (fun r =>
          upsertEmailHit (pyLower (pyStrip clientMail)) r ||
          upsertPhoneHit (dropPlus (e164 clientRealPhone)) r) = some r0 →
        (upsert_client_and_attach_proxy clientName clientMail clientRealPhone
          proxyNumber pendingId pools clients).2.created = false ∧
        (upsert_client_and_attach_proxy clientName clientMail clientRealPhone
          proxyNumber pendingId pools clients).2.client.client_id =
          r0.client_id) := by
  intro clientName clientMail clientRealPhone proxyNumber pendingId pools
    clients
  refine ⟨upsertFindMatch_eq_find? _ _ clients, ?_, ?_⟩
  · intro hnone
    have hfm : upsertFindMatch (pyLower (pyStrip clientMail))
        (dropPlus (e164 clientRealPhone)) clients = none := by
      rw [upsertFindMatch_eq_find?, hnone]
      rfl
    unfold upsert_client_and_attach_proxy
    simp only [upsertPoolMatch, poolsRepoHasFindRowByPhone,
      Bool.false_eq_true, if_false, hfm]
    exact ⟨by trivial, by trivial, by trivial⟩
  · intro r0 hsome
    have hfm : upsertFindMatch (pyLower (pyStrip clientMail))
        (dropPlus (e164 clientRealPhone)) clients =
        some (r0.client_id,
          if upsertEmailHit (pyLower (pyStrip clientMail)) r0 then
            "email_match"
          else "phone_match") := by
      rw [upsertFindMatch_eq_find?, hsome]
      rfl
    unfold upsert_client_and_attach_proxy
    simp only [upsertPoolMatch, poolsRepoHasFindRowByPhone,
      Bool.false_eq_true, if_false, hfm]
    refine ⟨by trivial, ?_⟩
    cases hget : get_by_id r0.client_id clients with
    | some rec =>
      simp only [hget]
      have hget' : clients.find? (fun r => r.client_id = r0.client_id) =
          some rec := hget
      have hp := List.find?_some hget'
      simp only [decide_eq_true_eq] at hp
      exact hp
    | none => simp only [hget]

/-- Witness for C9's amended theorem: on the two-record fixture table the
first match is the phone-only record, and on an empty table a new client
with id max+1 = 1 is appended. -/
theorem C9_upsert_priority_amended_witness :
    (upsert_client_and_attach_proxy "Jane" "jane@example.com" "+33600000001"
        "+33999000111" "P1" [] [clientPhoneOnly, clientMailOnly]).2.created =
      false ∧
    (upsert_client_and_attach_proxy "Jane" "jane@example.com" "+33600000001"
        "+33999000111" "P1" [] []).2.created = true ∧
    (upsert_client_and_attach_proxy "Jane" "jane@example.com" "+33600000001"
        "+33999000111" "P1" [] []).2.client.client_id =
      toString (get_max_client_id [] + 1) := by
  have h1 := (C9_upsert_priority_amended "Jane" "jane@example.com"
    "+33600000001" "+33999000111" "P1" [] [clientPhoneOnly,
    clientMailOnly]).2.2 clientPhoneOnly (by decide)
  have h2 := (C9_upsert_priority_amended "Jane" "jane@example.com"
    "+33600000001" "+33999000111" "P1" [] []).2.1 (by decide)
  exact ⟨h1.1, h2.1, h2.2.1⟩

/-- C10 counterexample: on a successful Finalize the status cell (column C)
is the FIRST update issued, not the last — the last update of the payload
is the I/K reservation-trace write.  Evaluated on the fixture row with its
matching token. -/
theorem C10_status_write_order_counterexample :
    (finalize_assignment_keep_friendly [janePool] 0 "P1" (TimeStr.iso 100)
        "8" "D" "Jane" "NOW").2 =
      [PoolWrite.setStatus 0 "assigned", PoolWrite.setAttrib 0 "D" "Jane",
        PoolWrite.setTrace 0 "P1" (TimeStr.iso 100) "8"] ∧
    ((finalize_assignment_keep_friendly [janePool] 0 "P1" (TimeStr.iso 100)
        "8" "D" "Jane" "NOW").2.getLast?).map PoolWrite.isStatusWrite =
      some false ∧
    ((finalize_assignment_keep_friendly [janePool] 0 "P1" (TimeStr.iso 100)
        "8" "D" "Jane" "NOW").2.head?).map PoolWrite.isStatusWrite =
      some true := by
  exact ⟨rfl, rfl, rfl⟩

/-- C10 (amended): in both Finalize and Reserve the status transition cell
is written FIRST among the cells of the update payload (Finalize then
writes F/G and finally I/K; Reserve then writes I/K), so the status write
is never last. -/
theorem C10_status_write_order_amended :
    (∀ (s : List PoolRow) (rowIndex : Nat) (token : String)
      (reservedAt : TimeStr) (byId dateAttr attrName nowStr : String),
      pyStrip (tokenCellAt s rowIndex) = pyStrip token →
      (finalize_assignment_keep_friendly s rowIndex token reservedAt byId
          dateAttr attrName nowStr).2.head? =
        some (PoolWrite.setStatus rowIndex "assigned") ∧
      ((finalize_assignment_keep_friendly s rowIndex token reservedAt byId
          dateAttr attrName nowStr).2.getLast?).map PoolWrite.isStatusWrite =
        some false) ∧
    (∀ (idx : Nat) (token : String) (now : Int) (clientId : String),
      (reserveAttemptWrites idx token now clientId).head? =
        some (PoolWrite.setStatus idx "reserved") ∧
      ((reserveAttemptWrites idx token now clientId).getLast?).map
        PoolWrite.isStatusWrite = some false) := by
  constructor
  · intro s rowIndex token reservedAt byId dateAttr attrName nowStr h
    unfold finalize_assignment_keep_friendly
    simp [if_neg (not_not_intro h), PoolWrite.isStatusWrite]
  · intro idx token now clientId
    exact ⟨rfl, rfl⟩

/-- Witness for C10's amended theorem: concrete Finalize and Reserve write
payloads both start with the status write. -/
theorem C10_status_write_order_amended_witness :
    (finalize_assignment_keep_friendly [freePoolRow] 0 "" TimeStr.empty "9"
        "D2" "N" "NOW2").2.head? =
      some (PoolWrite.setStatus 0 "assigned") ∧
    (reserveAttemptWrites 3 "tokX" 42 "5").head? =
      some (PoolWrite.setStatus 3 "reserved") := by
  exact ⟨(C10_status_write_order_amended.1 [freePoolRow] 0 "" TimeStr.empty
      "9" "D2" "N" "NOW2" (by decide)).1,
    (C10_status_write_order_amended.2 3 "tokX" 42 "5").1⟩

end ProxyCall
